import Mathlib

/-!
# Binary content creation (Code/Systems/Content/BinaryContent.cpp)

A shallow embedding of the binary content creator of the content system:
`MakeBinaryContent`, `BinaryBuilder::Generate`, `BinaryBuilder::Serialize` and
`CreateBinaryContent`.  C++ objects mutated through references or pointers are
values passed in and returned.  The 64 bit resource ids and the version counter
are natural numbers; the code performs no arithmetic on them.
-/

namespace Raverie

/-! ## Data model -/

/-- The diagnostic `errorMessage` (two adjacent C string literals). -/
def errorMessage : String :=
  "Need builder type for binary files." ++ " Since file is binary a loader must be provided."

/-- Modelled from the spec: the `ContentInitializer` class declaration is not part of the
sources at hand; these are the fields `BinaryContent.cpp` reads and writes, with the spec's
`success` and `message`. -/
structure ContentInitializer where
  Filename : String
  Extension : String
  Name : String
  BuilderType : String
  AddResourceId : Nat
  ResourceOwner : String
  Success : Bool
  Message : String
  deriving DecidableEq, Repr

/-- Modelled from the spec: `GenerateUniqueId64` is only declared (Utilities.hpp); the
system timer and mac address it reads are the environment.  The environment is the
sequence of values its successive calls return, with the number of calls made so far. -/
structure UniqueIdSource where
  ids : Nat → Nat
  calls : Nat

/-- One call of `GenerateUniqueId64`: the next value of the environment. -/
def GenerateUniqueId64 (p : UniqueIdSource) : Nat × UniqueIdSource :=
  (p.ids p.calls, { p with calls := p.calls + 1 })

/-- The data members of `BinaryBuilder`, as listed by `BinaryBuilder::Serialize`. -/
structure BinaryBuilder where
  Name : String
  mResourceId : Nat
  LoaderType : String
  Version : Nat
  FilterTag : String
  ResourceOwner : String
  deriving DecidableEq, Repr

/-- Modelled from the spec: the `BinaryBuilder` class declaration is not part of the
sources at hand; `new BinaryBuilder()` gives empty strings (the defaults `String()` of
`Serialize`) and zero numbers.  `Generate` overwrites every member except `FilterTag`. -/
def BinaryBuilder.new : BinaryBuilder :=
  { Name := "", mResourceId := 0, LoaderType := "", Version := 0, FilterTag := "",
    ResourceOwner := "" }

/-- Modelled from the spec: the enum `ContentEditMode` is not part of the sources at hand;
the spec lists `ResourceObject` and `ContentItemOnly`. -/
inductive ContentEditMode where
  | ResourceObject
  | ContentItemOnly
  deriving DecidableEq, Repr

/-- Modelled from the spec: the `ContentItem` base class is not part of the sources at
hand; a content item has a filename, an edit mode and an ordered collection of attached
builder components (here the only component type is `BinaryBuilder`). -/
structure ContentItem where
  Filename : String
  EditMode : ContentEditMode
  Components : List BinaryBuilder
  deriving DecidableEq, Repr

/-- Modelled from the spec: `ContentItem::AddComponent` is not part of the sources at
hand; it attaches the component after those already attached. -/
def ContentItem.AddComponent (content : ContentItem) (builder : BinaryBuilder) : ContentItem :=
  { content with Components := content.Components ++ [builder] }

/-- `BinaryContent::BinaryContent()`: the constructor sets the edit mode; the base class
leaves the filename empty and attaches nothing. -/
def BinaryContent.new : ContentItem :=
  { Filename := "", EditMode := ContentEditMode.ResourceObject, Components := [] }

/-! ## BinaryBuilder::Generate -/

/-- `BinaryBuilder::Generate(ContentInitializer&)`: returns the builder after the call and
the id environment after the call. -/
def BinaryBuilder.Generate (p : UniqueIdSource) (self : BinaryBuilder)
    (initializer : ContentInitializer) : BinaryBuilder × UniqueIdSource :=
  let r : Nat × UniqueIdSource :=
    if initializer.AddResourceId = 0 then GenerateUniqueId64 p
    else (initializer.AddResourceId, p)
  ({ self with
      mResourceId := r.1
      Name := initializer.Name
      LoaderType := initializer.BuilderType
      Version := 0
      ResourceOwner := initializer.ResourceOwner }, r.2)

/-! ## MakeBinaryContent -/

/-- What a creator function leaves behind: the returned pointer (`none` is `nullptr`),
the initializer it was given by reference, and the id environment. -/
structure CreateResult where
  item : Option ContentItem
  initializer : ContentInitializer
  platform : UniqueIdSource

/-- `MakeBinaryContent(ContentInitializer&)`.  The four extension tests run in source
order, each one assigning `BuilderType` when it matches.  `ErrorIf` is a diagnostic
assertion macro: it reports `errorMessage` and changes neither the initializer nor the
returned pointer. -/
def MakeBinaryContent (p : UniqueIdSource) (initializer : ContentInitializer) : CreateResult :=
  let i1 := if initializer.Extension = "dds" then
      { initializer with BuilderType := "TextureDds" } else initializer
  let i2 := if i1.Extension = "convexmesh" then
      { i1 with BuilderType := "ConvexMesh" } else i1
  let i3 := if i2.Extension = "multiconvexmesh" then
      { i2 with BuilderType := "MultiConvexMesh" } else i2
  let i4 := if i3.Extension = "cubetex" then
      { i3 with BuilderType := "TextureCube" } else i3
  if i4.BuilderType = "" then
    { item := none
      initializer := { i4 with Success := false, Message := errorMessage }
      platform := p }
  else
    let content : ContentItem := { BinaryContent.new with Filename := i4.Filename }
    let g := BinaryBuilder.Generate p BinaryBuilder.new i4
    { item := some (content.AddComponent g.1)
      initializer := i4
      platform := g.2 }

/-! ## BinaryBuilder::Serialize -/

/-- Modelled from the spec: the `Serializer` class is not part of the sources at hand.
A persisted field value is a string or a number. -/
inductive FieldValue where
  | str (s : String)
  | num (n : Nat)
  deriving DecidableEq, Repr

/-- Modelled from the spec: the direction a `Serializer` runs in. -/
inductive SerializerMode where
  | Saving
  | Loading
  deriving DecidableEq, Repr

/-- Modelled from the spec: the `Serializer` class is not part of the sources at hand.
A stream is a direction, the persisted record (the named fields in the order written) and
whether a read has met a schema mismatch (`SerializationSchemaMismatch`, "only fatal for
required fields; optional fields degrade to defaults"). -/
structure Serializer where
  Mode : SerializerMode
  Fields : List (String × FieldValue)
  Mismatch : Bool := false
  deriving DecidableEq, Repr

/-- The value persisted under a field name, when the record has that field. -/
def Serializer.find (stream : Serializer) (fieldName : String) : Option FieldValue :=
  (stream.Fields.find? (fun f => f.1 == fieldName)).map Prod.snd

/-- The string persisted under a field name, when the record has one. -/
def Serializer.findString (stream : Serializer) (fieldName : String) : Option String :=
  match stream.find fieldName with
  | some (FieldValue.str s) => some s
  | _ => none

/-- The number persisted under a field name, when the record has one. -/
def Serializer.findNumber (stream : Serializer) (fieldName : String) : Option Nat :=
  match stream.find fieldName with
  | some (FieldValue.num n) => some n
  | _ => none

/-- Modelled from the spec: the macro `SerializeName` (not part of the sources at hand) on a
string member.  Saving writes the member under its name; loading reads it from the record;
when the record has no such field the member stays as it is and the stream records the
schema mismatch. -/
def SerializeNameString (stream : Serializer) (fieldName : String) (member : String) :
    Serializer × String :=
  match stream.Mode with
  | SerializerMode.Saving =>
    ({ stream with Fields := stream.Fields ++ [(fieldName, FieldValue.str member)] }, member)
  | SerializerMode.Loading =>
    match stream.findString fieldName with
    | some v => (stream, v)
    | none => ({ stream with Mismatch := true }, member)

/-- Modelled from the spec: the macro `SerializeName` (not part of the sources at hand) on a
numeric member. -/
def SerializeNameNumber (stream : Serializer) (fieldName : String) (member : Nat) :
    Serializer × Nat :=
  match stream.Mode with
  | SerializerMode.Saving =>
    ({ stream with Fields := stream.Fields ++ [(fieldName, FieldValue.num member)] }, member)
  | SerializerMode.Loading =>
    match stream.findNumber fieldName with
    | some v => (stream, v)
    | none => ({ stream with Mismatch := true }, member)

/-- Modelled from the spec: the macro `SerializeNameDefault` (not part of the sources at
hand) on a string member: as `SerializeName`, but a field absent on read gives the member
the default value ("fields with defaults must tolerate absence on read"). -/
def SerializeNameDefaultString (stream : Serializer) (fieldName : String) (member : String)
    (defaultValue : String) : Serializer × String :=
  match stream.Mode with
  | SerializerMode.Saving =>
    ({ stream with Fields := stream.Fields ++ [(fieldName, FieldValue.str member)] }, member)
  | SerializerMode.Loading =>
    match stream.findString fieldName with
    | some v => (stream, v)
    | none => (stream, defaultValue)

/-- `BinaryBuilder::Serialize(Serializer&)`: the six members in source order, each under
its own name; `String()` is the empty string. -/
def BinaryBuilder.Serialize (self : BinaryBuilder) (stream : Serializer) :
    Serializer × BinaryBuilder :=
  let r1 := SerializeNameString stream "Name" self.Name
  let r2 := SerializeNameNumber r1.1 "mResourceId" self.mResourceId
  let r3 := SerializeNameString r2.1 "LoaderType" self.LoaderType
  let r4 := SerializeNameNumber r3.1 "Version" self.Version
  let r5 := SerializeNameDefaultString r4.1 "FilterTag" self.FilterTag ""
  let r6 := SerializeNameDefaultString r5.1 "ResourceOwner" self.ResourceOwner ""
  (r6.1, { Name := r1.2, mResourceId := r2.2, LoaderType := r3.2, Version := r4.2,
           FilterTag := r5.2, ResourceOwner := r6.2 })

/-! ## CreateBinaryContent -/

/-- A creator function, `ContentItem* (*)(ContentInitializer&)`. -/
abbrev MakeContentItem := UniqueIdSource → ContentInitializer → CreateResult

/-- `ContentTypeEntry(meta, creator)`: the content type and its creator function. -/
structure ContentTypeEntry where
  Meta : String
  MakeItem : MakeContentItem

/-- Modelled from the spec: the `ContentSystem` class is not part of the sources at hand.
`CreatorsByExtension` is the hash map from extension to entry, a finite map read by key;
the two other members are the registered builder component types and content types. -/
structure ContentSystem where
  CreatorsByExtension : String → Option ContentTypeEntry
  ComponentTypes : List String
  ContentTypes : List String

/-- Assignment through `operator[]` of the hash map: the entry of `key` becomes `entry`,
whether or not the key was present; no other key changes. -/
def ContentSystem.setCreator (system : ContentSystem) (key : String) (entry : ContentTypeEntry) :
    ContentSystem :=
  { system with
      CreatorsByExtension := fun k => if k = key then some entry else system.CreatorsByExtension k }

/-- Modelled from the spec: `AddContentComponent<T>` is not part of the sources at hand;
it registers the builder component type and leaves the extension table alone. -/
def AddContentComponent (typeName : String) (system : ContentSystem) : ContentSystem :=
  { system with ComponentTypes := system.ComponentTypes.insert typeName }

/-- Modelled from the spec: `AddContent<T>` is not part of the sources at hand; it
registers the content type and leaves the extension table alone. -/
def AddContent (typeName : String) (system : ContentSystem) : ContentSystem :=
  { system with ContentTypes := system.ContentTypes.insert typeName }

/-- The local `binary` of `CreateBinaryContent`. -/
def binaryEntry : ContentTypeEntry :=
  { Meta := "BinaryContent", MakeItem := MakeBinaryContent }

/-- `CreateBinaryContent(ContentSystem*)`: the five assignments in source order. -/
def CreateBinaryContent (system : ContentSystem) : ContentSystem :=
  let s1 := AddContentComponent "BinaryBuilder" system
  let s2 := AddContent "BinaryContent" s1
  let binary := binaryEntry
  let s3 := s2.setCreator "bin" binary
  let s4 := s3.setCreator "convexmesh" binary
  let s5 := s4.setCreator "multiconvexmesh" binary
  let s6 := s5.setCreator "physmesh" binary
  s6.setCreator "cubetex" binary

/-- A content system with nothing registered. -/
def ContentSystem.empty : ContentSystem :=
  { CreatorsByExtension := fun _ => none, ComponentTypes := [], ContentTypes := [] }

/-! ## Content library: resource id collisions -/

/-- An id environment whose n-th call returns `1000 + n`. -/
def sampleSource : UniqueIdSource := { ids := fun n => 1000 + n, calls := 0 }

/-- A request for `rock.bin` with builder type `Custom` and no donor id. -/
def sampleInitializer : ContentInitializer :=
  { Filename := "rock.bin", Extension := "bin", Name := "rock", BuilderType := "Custom",
    AddResourceId := 0, ResourceOwner := "owner", Success := true, Message := "" }

/-- A builder that was generated and rebuilt before: id 7, version 3. -/
def sampleBuilder : BinaryBuilder :=
  { Name := "old", mResourceId := 7, LoaderType := "Old", Version := 3, FilterTag := "tag",
    ResourceOwner := "previous" }

/-- The item `MakeBinaryContent` returns for the sample request. -/
def sampleItem : ContentItem :=
  { Filename := "rock.bin", EditMode := ContentEditMode.ResourceObject,
    Components := [{ Name := "rock", mResourceId := 1000, LoaderType := "Custom", Version := 0,
                     FilterTag := "", ResourceOwner := "owner" }] }

/-- A record of an older schema: the four required fields only. -/
def sampleOldRecord : List (String × FieldValue) :=
  [("Name", FieldValue.str "rock"), ("mResourceId", FieldValue.num 42),
   ("LoaderType", FieldValue.str "Custom"), ("Version", FieldValue.num 2)]

/-- A table in which `dds` has an entry of another content type. -/
def sampleSystem : ContentSystem :=
  { CreatorsByExtension := fun k =>
      if k = "dds" then some { Meta := "TextureContent", MakeItem := MakeBinaryContent }
      else none,
    ComponentTypes := [], ContentTypes := [] }

end Raverie

/-!
# Build version (Code/Foundation/Common/BuildVersion.cpp)
-/

namespace Zero

/-- The file functions `FileExists` and `ReadFileIntoMemory`, which are not part of the
sources at hand, taken as parameters: whether a path exists, and the bytes read as text
(`none` is the null pointer). -/
structure FileSystem where
  FileExists : String → Bool
  ReadFileIntoMemory : String → Option String

/-- `GetVersionId(versionIdFilePath)`.  `ToValue` (not part of the sources at hand) is a
parameter: from the text and the current value it gives the value it leaves in
`localVersionId`.  The write `data[fileSize] = 0` comes before the null test, so a null
`data` gives no result (`none`). -/
def GetVersionId (fs : FileSystem) (ToValue : String → Int → Int) (versionIdFilePath : String) :
    Option Int :=
  let localVersionId : Int := -99
  if fs.FileExists versionIdFilePath then
    match fs.ReadFileIntoMemory versionIdFilePath with
    | none => none
    | some data => some (ToValue data localVersionId)
  else
    some localVersionId

/-- A file system with no file at all. -/
def sampleNoFiles : FileSystem :=
  { FileExists := fun _ => false, ReadFileIntoMemory := fun _ => none }

end Zero

namespace Raverie

/-! ## Generate -/

/-- C1: a non-zero `AddResourceId` becomes the builder's resource id and
`GenerateUniqueId64` is not called; when `AddResourceId` is 0 the id is the value of one
call of `GenerateUniqueId64`. -/
theorem Generate_resource_id (p : UniqueIdSource) (b : BinaryBuilder) (i : ContentInitializer) :
    (i.AddResourceId ≠ 0 →
      (b.Generate p i).1.mResourceId = i.AddResourceId ∧ (b.Generate p i).2 = p) ∧
    (i.AddResourceId = 0 →
      (b.Generate p i).1.mResourceId = (GenerateUniqueId64 p).1 ∧
      (b.Generate p i).2 = (GenerateUniqueId64 p).2) := by
  constructor
  · intro h
    simp [BinaryBuilder.Generate, h]
  · intro h
    simp [BinaryBuilder.Generate, h]

/-- C1 at a concrete input: donor id 7 is reused and no call is made; with no donor id the
first value of the environment, 1000, is taken and one call is made. -/
theorem Generate_resource_id_witness :
    ((sampleBuilder.Generate sampleSource { sampleInitializer with AddResourceId := 7 }).1.mResourceId = 7 ∧
      (sampleBuilder.Generate sampleSource { sampleInitializer with AddResourceId := 7 }).2.calls = 0) ∧
    ((sampleBuilder.Generate sampleSource sampleInitializer).1.mResourceId = 1000 ∧
      (sampleBuilder.Generate sampleSource sampleInitializer).2.calls = 1) := by
  have h := Generate_resource_id sampleSource sampleBuilder { sampleInitializer with AddResourceId := 7 }
  have h0 := Generate_resource_id sampleSource sampleBuilder sampleInitializer
  refine ⟨⟨(h.1 (by decide)).1, ?_⟩, ?_, ?_⟩
  · rw [(h.1 (by decide)).2]; rfl
  · rw [(h0.2 rfl).1]; rfl
  · rw [(h0.2 rfl).2]; rfl

/-- C2: after `Generate` the name, loader type and owner are the initializer's and the
version is 0, whatever the builder held before. -/
theorem Generate_copies_fields (p : UniqueIdSource) (b : BinaryBuilder) (i : ContentInitializer) :
    (b.Generate p i).1.Name = i.Name ∧
    (b.Generate p i).1.LoaderType = i.BuilderType ∧
    (b.Generate p i).1.Version = 0 ∧
    (b.Generate p i).1.ResourceOwner = i.ResourceOwner := by
  simp [BinaryBuilder.Generate]

/-! ## MakeBinaryContent -/

/-- C3: `MakeBinaryContent` returns no item, with `Success` false and the diagnostic as
`Message`, exactly when `BuilderType` is empty on entry and the extension is none of the
four inferred ones; in every other case an item is returned. -/
theorem MakeBinaryContent_fails_iff (p : UniqueIdSource) (i : ContentInitializer) :
    (((MakeBinaryContent p i).item = none ∧
        (MakeBinaryContent p i).initializer.Success = false ∧
        (MakeBinaryContent p i).initializer.Message = errorMessage) ↔
      (i.BuilderType = "" ∧ i.Extension ≠ "dds" ∧ i.Extension ≠ "convexmesh" ∧
        i.Extension ≠ "multiconvexmesh" ∧ i.Extension ≠ "cubetex")) ∧
    ((MakeBinaryContent p i).item.isSome = true ↔
      ¬ (i.BuilderType = "" ∧ i.Extension ≠ "dds" ∧ i.Extension ≠ "convexmesh" ∧
        i.Extension ≠ "multiconvexmesh" ∧ i.Extension ≠ "cubetex")) := by
  by_cases h1 : i.Extension = "dds"
  · simp [MakeBinaryContent, h1]
  · by_cases h2 : i.Extension = "convexmesh"
    · simp [MakeBinaryContent, h2]
    · by_cases h3 : i.Extension = "multiconvexmesh"
      · simp [MakeBinaryContent, h3]
      · by_cases h4 : i.Extension = "cubetex"
        · simp [MakeBinaryContent, h4]
        · by_cases hb : i.BuilderType = ""
          · simp [MakeBinaryContent, h1, h2, h3, h4, hb]
          · simp [MakeBinaryContent, h1, h2, h3, h4, hb]


/-- C3 at concrete inputs: `rock.bin` without a builder type fails with the diagnostic,
and with the builder type `Custom` an item is returned. -/
theorem MakeBinaryContent_fails_iff_witness :
    ((MakeBinaryContent sampleSource { sampleInitializer with BuilderType := "" }).item = none ∧
      (MakeBinaryContent sampleSource { sampleInitializer with BuilderType := "" }).initializer.Success
        = false ∧
      (MakeBinaryContent sampleSource { sampleInitializer with BuilderType := "" }).initializer.Message
        = errorMessage) ∧
    (MakeBinaryContent sampleSource sampleInitializer).item.isSome = true :=
  ⟨(MakeBinaryContent_fails_iff sampleSource { sampleInitializer with BuilderType := "" }).1.mpr
      (by decide),
    (MakeBinaryContent_fails_iff sampleSource sampleInitializer).2.mpr (by decide)⟩

/-- C4, refuted as stated: for the explicit builder type `Custom` and the extension `dds`
an item is returned, but its builder's loader type and the initializer's builder type
after the call are `TextureDds`, not `Custom`. -/
theorem MakeBinaryContent_explicit_type_overridden :
    sampleInitializer.BuilderType = "Custom" ∧
    (MakeBinaryContent sampleSource { sampleInitializer with Extension := "dds" }).initializer.BuilderType
      = "TextureDds" ∧
    ((MakeBinaryContent sampleSource { sampleInitializer with Extension := "dds" }).item.map
      (fun c => c.Components.map BinaryBuilder.LoaderType)) = some ["TextureDds"] ∧
    "TextureDds" ≠ sampleInitializer.BuilderType := by
  decide

/-- C4, amended: with a non-empty builder type on entry `MakeBinaryContent` returns an item
with one builder whose loader type is the initializer's builder type after the call; that
type is the caller's when the extension is none of the four inferred ones, and the
extension's type otherwise. -/
theorem MakeBinaryContent_explicit_type (p : UniqueIdSource) (i : ContentInitializer)
    (h : i.BuilderType ≠ "") :
    (∃ c b, (MakeBinaryContent p i).item = some c ∧ c.Components = [b] ∧
      b.LoaderType = (MakeBinaryContent p i).initializer.BuilderType) ∧
    ((i.Extension ≠ "dds" ∧ i.Extension ≠ "convexmesh" ∧ i.Extension ≠ "multiconvexmesh" ∧
        i.Extension ≠ "cubetex") →
      (MakeBinaryContent p i).initializer.BuilderType = i.BuilderType) ∧
    (i.Extension = "dds" → (MakeBinaryContent p i).initializer.BuilderType = "TextureDds") ∧
    (i.Extension = "convexmesh" →
      (MakeBinaryContent p i).initializer.BuilderType = "ConvexMesh") ∧
    (i.Extension = "multiconvexmesh" →
      (MakeBinaryContent p i).initializer.BuilderType = "MultiConvexMesh") ∧
    (i.Extension = "cubetex" →
      (MakeBinaryContent p i).initializer.BuilderType = "TextureCube") := by
  by_cases h1 : i.Extension = "dds"
  · simp [MakeBinaryContent, h1, ContentItem.AddComponent, BinaryContent.new,
      BinaryBuilder.Generate]
  · by_cases h2 : i.Extension = "convexmesh"
    · simp [MakeBinaryContent, h2, ContentItem.AddComponent, BinaryContent.new,
        BinaryBuilder.Generate]
    · by_cases h3 : i.Extension = "multiconvexmesh"
      · simp [MakeBinaryContent, h3, ContentItem.AddComponent, BinaryContent.new,
          BinaryBuilder.Generate]
      · by_cases h4 : i.Extension = "cubetex"
        · simp [MakeBinaryContent, h4, ContentItem.AddComponent, BinaryContent.new,
            BinaryBuilder.Generate]
        · simp [MakeBinaryContent, h, h1, h2, h3, h4, ContentItem.AddComponent,
            BinaryContent.new, BinaryBuilder.Generate]

/-- C4, amended, at a concrete input: `rock.bin` with builder type `Custom` keeps
`Custom`. -/
theorem MakeBinaryContent_explicit_type_witness :
    sampleInitializer.BuilderType ≠ "" ∧
    (MakeBinaryContent sampleSource sampleInitializer).initializer.BuilderType = "Custom" :=
  ⟨by decide,
    (MakeBinaryContent_explicit_type sampleSource sampleInitializer (by decide)).2.1 (by decide)⟩

/-- C5: with an empty builder type on entry the initializer's builder type after the call
is the extension table's value, empty for every extension outside the table; a returned
item has one builder and its loader type is that value. -/
theorem MakeBinaryContent_infers_type (p : UniqueIdSource) (i : ContentInitializer)
    (h : i.BuilderType = "") :
    (i.Extension = "dds" → (MakeBinaryContent p i).initializer.BuilderType = "TextureDds") ∧
    (i.Extension = "convexmesh" →
      (MakeBinaryContent p i).initializer.BuilderType = "ConvexMesh") ∧
    (i.Extension = "multiconvexmesh" →
      (MakeBinaryContent p i).initializer.BuilderType = "MultiConvexMesh") ∧
    (i.Extension = "cubetex" →
      (MakeBinaryContent p i).initializer.BuilderType = "TextureCube") ∧
    ((i.Extension ≠ "dds" ∧ i.Extension ≠ "convexmesh" ∧ i.Extension ≠ "multiconvexmesh" ∧
        i.Extension ≠ "cubetex") →
      (MakeBinaryContent p i).initializer.BuilderType = "") ∧
    (∀ c, (MakeBinaryContent p i).item = some c →
      ∃ b, c.Components = [b] ∧
        b.LoaderType = (MakeBinaryContent p i).initializer.BuilderType) := by
  by_cases h1 : i.Extension = "dds"
  · simp [MakeBinaryContent, h1, ContentItem.AddComponent, BinaryContent.new,
      BinaryBuilder.Generate]
  · by_cases h2 : i.Extension = "convexmesh"
    · simp [MakeBinaryContent, h2, ContentItem.AddComponent, BinaryContent.new,
        BinaryBuilder.Generate]
    · by_cases h3 : i.Extension = "multiconvexmesh"
      · simp [MakeBinaryContent, h3, ContentItem.AddComponent, BinaryContent.new,
          BinaryBuilder.Generate]
      · by_cases h4 : i.Extension = "cubetex"
        · simp [MakeBinaryContent, h4, ContentItem.AddComponent, BinaryContent.new,
            BinaryBuilder.Generate]
        · simp [MakeBinaryContent, h, h1, h2, h3, h4]

/-- C5 at concrete inputs: `dds` resolves to `TextureDds`, while `DDS` (another case)
leaves the builder type empty. -/
theorem MakeBinaryContent_infers_type_witness :
    (MakeBinaryContent sampleSource
        { sampleInitializer with BuilderType := "", Extension := "dds" }).initializer.BuilderType
      = "TextureDds" ∧
    (MakeBinaryContent sampleSource
        { sampleInitializer with BuilderType := "", Extension := "DDS" }).initializer.BuilderType
      = "" :=
  ⟨(MakeBinaryContent_infers_type sampleSource
      { sampleInitializer with BuilderType := "", Extension := "dds" } rfl).1 rfl,
    (MakeBinaryContent_infers_type sampleSource
      { sampleInitializer with BuilderType := "", Extension := "DDS" } rfl).2.2.2.2.1
      (by decide)⟩

/-- C6: a returned item has the initializer's filename, edit mode `ResourceObject`, and
exactly one component: a new `BinaryBuilder` after `Generate` on the initializer as the
extension tests left it. -/
theorem MakeBinaryContent_item (p : UniqueIdSource) (i : ContentInitializer) (c : ContentItem)
    (h : (MakeBinaryContent p i).item = some c) :
    c.Filename = i.Filename ∧
    c.EditMode = ContentEditMode.ResourceObject ∧
    c.Components =
      [(BinaryBuilder.new.Generate p (MakeBinaryContent p i).initializer).1] ∧
    c.Components.length = 1 ∧
    (MakeBinaryContent p i).platform =
      (BinaryBuilder.new.Generate p (MakeBinaryContent p i).initializer).2 := by
  by_cases h1 : i.Extension = "dds"
  · simp [MakeBinaryContent, h1, ContentItem.AddComponent, BinaryContent.new] at h ⊢
    subst h
    simp
  · by_cases h2 : i.Extension = "convexmesh"
    · simp [MakeBinaryContent, h2, ContentItem.AddComponent, BinaryContent.new] at h ⊢
      subst h
      simp
    · by_cases h3 : i.Extension = "multiconvexmesh"
      · simp [MakeBinaryContent, h3, ContentItem.AddComponent, BinaryContent.new] at h ⊢
        subst h
        simp
      · by_cases h4 : i.Extension = "cubetex"
        · simp [MakeBinaryContent, h4, ContentItem.AddComponent, BinaryContent.new] at h ⊢
          subst h
          simp
        · by_cases hb : i.BuilderType = ""
          · simp [MakeBinaryContent, h1, h2, h3, h4, hb] at h
          · simp [MakeBinaryContent, h1, h2, h3, h4, hb, ContentItem.AddComponent,
              BinaryContent.new] at h ⊢
            subst h
            simp

/-- C6 at a concrete input: the item for `rock.bin` with builder type `Custom`. -/
theorem MakeBinaryContent_item_witness :
    (MakeBinaryContent sampleSource sampleInitializer).item = some sampleItem ∧
    sampleItem.Filename = sampleInitializer.Filename ∧
    sampleItem.Components.length = 1 :=
  ⟨by decide,
    (MakeBinaryContent_item sampleSource sampleInitializer sampleItem (by decide)).1,
    (MakeBinaryContent_item sampleSource sampleInitializer sampleItem (by decide)).2.2.2.1⟩

/-! ## The creator registered for "bin" -/

/-- C7, refuted as stated: the creator registered for `bin`, given the request for
`rock.bin` with an empty builder type and no donor id, returns no item, sets `Success`
to false and calls `GenerateUniqueId64` not at all. -/
theorem bin_creator_without_type_fails :
    (((CreateBinaryContent ContentSystem.empty).CreatorsByExtension "bin").map
      (fun e => ((e.MakeItem sampleSource { sampleInitializer with BuilderType := "" }).item,
        (e.MakeItem sampleSource { sampleInitializer with BuilderType := "" }).initializer.Success,
        (e.MakeItem sampleSource { sampleInitializer with BuilderType := "" }).platform.calls)))
      = some (none, false, 0) := by
  decide

/-- C7, amended: after `CreateBinaryContent` the entry for `bin` is the binary entry; for a
request with extension `bin` its creator fails with the diagnostic when the builder type is
empty, and when the builder type is given and `AddResourceId` is 0 it returns an item with
one builder, whose id is the value of one call of `GenerateUniqueId64` and whose loader
type is the given builder type. -/
theorem bin_creator (system : ContentSystem) (p : UniqueIdSource) (i : ContentInitializer)
    (hext : i.Extension = "bin") :
    ∃ e, (CreateBinaryContent system).CreatorsByExtension "bin" = some e ∧
      (i.BuilderType = "" →
        (e.MakeItem p i).item = none ∧ (e.MakeItem p i).initializer.Success = false ∧
        (e.MakeItem p i).initializer.Message = errorMessage) ∧
      (i.BuilderType ≠ "" → i.AddResourceId = 0 →
        ∃ c b, (e.MakeItem p i).item = some c ∧ c.Components = [b] ∧
          b.mResourceId = (GenerateUniqueId64 p).1 ∧ b.LoaderType = i.BuilderType ∧
          (e.MakeItem p i).platform = (GenerateUniqueId64 p).2) := by
  refine ⟨binaryEntry, ?_, ?_, ?_⟩
  · simp [CreateBinaryContent, ContentSystem.setCreator]
  · intro hb
    simp [binaryEntry, MakeBinaryContent, hext, hb]
  · intro hb hid
    simp [binaryEntry, MakeBinaryContent, hext, hb, hid, ContentItem.AddComponent,
      BinaryContent.new, BinaryBuilder.Generate]

/-- C7, amended, at a concrete input: `rock.bin` with builder type `Custom` and no donor
id gets the first generated id, 1000. -/
theorem bin_creator_witness :
    sampleInitializer.Extension = "bin" ∧
    ∃ e, (CreateBinaryContent ContentSystem.empty).CreatorsByExtension "bin" = some e ∧
      ∃ c b, (e.MakeItem sampleSource sampleInitializer).item = some c ∧ c.Components = [b] ∧
        b.mResourceId = 1000 := by
  obtain ⟨e, he, -, h⟩ := bin_creator ContentSystem.empty sampleSource sampleInitializer rfl
  obtain ⟨c, b, hc, hb, hid, -, -⟩ := h (by decide) rfl
  exact ⟨rfl, e, he, c, b, hc, hb, hid⟩

/-! ## Serialize -/

/-- The record `Serialize` writes in save mode: the six members under their names. -/
theorem Serialize_saving (b : BinaryBuilder) :
    b.Serialize { Mode := SerializerMode.Saving, Fields := [] } =
      ({ Mode := SerializerMode.Saving,
         Fields := [("Name", FieldValue.str b.Name), ("mResourceId", FieldValue.num b.mResourceId),
           ("LoaderType", FieldValue.str b.LoaderType), ("Version", FieldValue.num b.Version),
           ("FilterTag", FieldValue.str b.FilterTag),
           ("ResourceOwner", FieldValue.str b.ResourceOwner)] }, b) := by
  rfl

/-- C8: saving a builder to a new record and loading that record into any other builder
gives back the saved builder in all six members; saving leaves the builder as it is. -/
theorem Serialize_round_trip (b other : BinaryBuilder) :
    (other.Serialize
      { Mode := SerializerMode.Loading,
        Fields := (b.Serialize { Mode := SerializerMode.Saving, Fields := [] }).1.Fields }).2 = b ∧
    (b.Serialize { Mode := SerializerMode.Saving, Fields := [] }).2 = b := by
  rw [Serialize_saving]
  refine ⟨?_, rfl⟩
  rfl

/-- In a record whose field names are pairwise distinct, the reader finds the value of
every field the record holds. -/
theorem Serializer.find_of_mem (mode : SerializerMode) (mismatch : Bool) (k : String)
    (x : FieldValue) (fields : List (String × FieldValue))
    (hkeys : (fields.map Prod.fst).Nodup) (h : (k, x) ∈ fields) :
    (Serializer.mk mode fields mismatch).find k = some x := by
  induction fields with
  | nil => exact absurd h (List.not_mem_nil _)
  | cons f rest ih =>
    rw [List.map_cons, List.nodup_cons] at hkeys
    rcases List.mem_cons.mp h with hhead | htail
    · subst hhead
      simp [Serializer.find, List.find?]
    · have hne : f.1 ≠ k := by
        intro heq
        apply hkeys.1
        rw [heq]
        exact List.mem_map.mpr ⟨(k, x), htail, rfl⟩
      have ih' := ih hkeys.2 htail
      simp only [Serializer.find] at ih' ⊢
      rw [List.find?_cons_of_neg _ (by simpa using hne)]
      exact ih'

/-- The reader finds nothing under a name the record does not hold. -/
theorem Serializer.find_of_absent (mode : SerializerMode) (mismatch : Bool) (k : String)
    (fields : List (String × FieldValue)) (h : k ∉ fields.map Prod.fst) :
    (Serializer.mk mode fields mismatch).find k = none := by
  simp only [Serializer.find, Option.map_eq_none', List.find?_eq_none]
  intro f hf heq
  have hk : f.1 = k := by simpa using heq
  apply h
  rw [← hk]
  exact List.mem_map.mpr ⟨f, hf, rfl⟩

/-- Loading a member with a default leaves the stream as it is, and gives the string the
record holds under the name, or the default when it holds none. -/
theorem SerializeNameDefaultString_loading (fields : List (String × FieldValue))
    (mismatch : Bool) (fieldName member defaultValue : String) :
    SerializeNameDefaultString (Serializer.mk SerializerMode.Loading fields mismatch) fieldName
      member defaultValue =
      (Serializer.mk SerializerMode.Loading fields mismatch,
        ((Serializer.mk SerializerMode.Loading fields mismatch).findString fieldName).getD
          defaultValue) := by
  simp only [SerializeNameDefaultString]
  split <;> simp [*]

/-- Loading a record in which the reader finds the four required members: the stream stays
as it is, the required members are the values found, and the two members with a default
are the strings found or the empty string. -/
theorem Serialize_loading (b : BinaryBuilder) (fields : List (String × FieldValue))
    (mismatch : Bool) (name loaderType : String) (resourceId version : Nat)
    (hn : (Serializer.mk SerializerMode.Loading fields mismatch).findString "Name" = some name)
    (hi : (Serializer.mk SerializerMode.Loading fields mismatch).findNumber "mResourceId"
      = some resourceId)
    (hl : (Serializer.mk SerializerMode.Loading fields mismatch).findString "LoaderType"
      = some loaderType)
    (hv : (Serializer.mk SerializerMode.Loading fields mismatch).findNumber "Version"
      = some version) :
    b.Serialize (Serializer.mk SerializerMode.Loading fields mismatch) =
      (Serializer.mk SerializerMode.Loading fields mismatch,
        { Name := name, mResourceId := resourceId, LoaderType := loaderType,
          Version := version,
          FilterTag := ((Serializer.mk SerializerMode.Loading fields mismatch).findString
            "FilterTag").getD "",
          ResourceOwner := ((Serializer.mk SerializerMode.Loading fields mismatch).findString
            "ResourceOwner").getD "" }) := by
  simp only [BinaryBuilder.Serialize, SerializeNameString, SerializeNameNumber, hn, hi, hl, hv,
    SerializeNameDefaultString_loading]

/-- C9: for every builder and every record with pairwise distinct field names that holds
the four required fields, loading reports no schema mismatch, the four required members
are the record's values, a `FilterTag` or `ResourceOwner` the record lacks loads as the
empty string whatever the builder held, and one the record holds loads as its value. -/
theorem Serialize_load_defaults (b : BinaryBuilder) (fields : List (String × FieldValue))
    (name loaderType : String) (resourceId version : Nat)
    (hkeys : (fields.map Prod.fst).Nodup)
    (hName : ("Name", FieldValue.str name) ∈ fields)
    (hId : ("mResourceId", FieldValue.num resourceId) ∈ fields)
    (hLoader : ("LoaderType", FieldValue.str loaderType) ∈ fields)
    (hVersion : ("Version", FieldValue.num version) ∈ fields) :
    (b.Serialize { Mode := SerializerMode.Loading, Fields := fields }).1.Mismatch = false ∧
    (b.Serialize { Mode := SerializerMode.Loading, Fields := fields }).2.Name = name ∧
    (b.Serialize { Mode := SerializerMode.Loading, Fields := fields }).2.mResourceId
      = resourceId ∧
    (b.Serialize { Mode := SerializerMode.Loading, Fields := fields }).2.LoaderType
      = loaderType ∧
    (b.Serialize { Mode := SerializerMode.Loading, Fields := fields }).2.Version = version ∧
    ("FilterTag" ∉ fields.map Prod.fst →
      (b.Serialize { Mode := SerializerMode.Loading, Fields := fields }).2.FilterTag = "") ∧
    ("ResourceOwner" ∉ fields.map Prod.fst →
      (b.Serialize { Mode := SerializerMode.Loading, Fields := fields }).2.ResourceOwner = "") ∧
    (∀ tag, ("FilterTag", FieldValue.str tag) ∈ fields →
      (b.Serialize { Mode := SerializerMode.Loading, Fields := fields }).2.FilterTag = tag) ∧
    (∀ owner, ("ResourceOwner", FieldValue.str owner) ∈ fields →
      (b.Serialize { Mode := SerializerMode.Loading, Fields := fields }).2.ResourceOwner
        = owner) := by
  have hn : (Serializer.mk SerializerMode.Loading fields false).findString "Name" = some name := by
    simp only [Serializer.findString, Serializer.find_of_mem _ _ _ _ _ hkeys hName]
  have hi : (Serializer.mk SerializerMode.Loading fields false).findNumber "mResourceId"
      = some resourceId := by
    simp only [Serializer.findNumber, Serializer.find_of_mem _ _ _ _ _ hkeys hId]
  have hl : (Serializer.mk SerializerMode.Loading fields false).findString "LoaderType"
      = some loaderType := by
    simp only [Serializer.findString, Serializer.find_of_mem _ _ _ _ _ hkeys hLoader]
  have hv : (Serializer.mk SerializerMode.Loading fields false).findNumber "Version"
      = some version := by
    simp only [Serializer.findNumber, Serializer.find_of_mem _ _ _ _ _ hkeys hVersion]
  rw [Serialize_loading b fields false name loaderType resourceId version hn hi hl hv]
  refine ⟨rfl, rfl, rfl, rfl, rfl, ?_, ?_, ?_, ?_⟩
  · intro h
    simp [Serializer.findString, Serializer.find_of_absent _ _ _ _ h]
  · intro h
    simp [Serializer.findString, Serializer.find_of_absent _ _ _ _ h]
  · intro tag h
    simp [Serializer.findString, Serializer.find_of_mem _ _ _ _ _ hkeys h]
  · intro owner h
    simp [Serializer.findString, Serializer.find_of_mem _ _ _ _ _ hkeys h]

/-- C9 at a concrete input: a record of the older schema (name `rock`, id 42, loader
`Custom`, version 2, no filter tag, no owner) loaded into a builder that held `old`, 7,
`Old`, 3, `tag` and `previous`. -/
theorem Serialize_load_defaults_witness :
    sampleBuilder =
      { Name := "old", mResourceId := 7, LoaderType := "Old", Version := 3, FilterTag := "tag",
        ResourceOwner := "previous" } ∧
    (sampleBuilder.Serialize { Mode := SerializerMode.Loading, Fields := sampleOldRecord }).1.Mismatch
      = false ∧
    (sampleBuilder.Serialize { Mode := SerializerMode.Loading, Fields := sampleOldRecord }).2 =
      { Name := "rock", mResourceId := 42, LoaderType := "Custom", Version := 2,
        FilterTag := "", ResourceOwner := "" } := by
  obtain ⟨h0, h1, h2, h3, h4, h5, h6, -, -⟩ :=
    Serialize_load_defaults sampleBuilder sampleOldRecord "rock" "Custom" 42 2 (by decide)
      (by decide) (by decide) (by decide) (by decide)
  refine ⟨rfl, h0, ?_⟩
  have h5' := h5 (by decide)
  have h6' := h6 (by decide)
  cases hb : (sampleBuilder.Serialize
    { Mode := SerializerMode.Loading, Fields := sampleOldRecord }).2
  rw [hb] at h1 h2 h3 h4 h5' h6'
  simp only at h1 h2 h3 h4 h5' h6'
  subst h1 h2 h3 h4 h5' h6'
  rfl

/-- A record that lacks the required `Version`: loading reports the schema mismatch and
the builder keeps the version it held. -/
theorem Serialize_load_missing_required :
    (sampleBuilder.Serialize
      { Mode := SerializerMode.Loading,
        Fields := [("Name", FieldValue.str "rock"), ("mResourceId", FieldValue.num 42),
          ("LoaderType", FieldValue.str "Custom")] }).1.Mismatch = true ∧
    (sampleBuilder.Serialize
      { Mode := SerializerMode.Loading,
        Fields := [("Name", FieldValue.str "rock"), ("mResourceId", FieldValue.num 42),
          ("LoaderType", FieldValue.str "Custom")] }).2.Version = 3 := by
  decide

/-! ## Version across Generate -/

/-- C10, refuted as stated: a builder with id 7 and version 3, after `Generate` with
`AddResourceId` 7, still has id 7 but has version 0, which is lower than 3. -/
theorem Generate_lowers_version :
    sampleBuilder.mResourceId = 7 ∧ sampleBuilder.Version = 3 ∧
    (sampleBuilder.Generate sampleSource
      { sampleInitializer with AddResourceId := 7 }).1.mResourceId = 7 ∧
    (sampleBuilder.Generate sampleSource
      { sampleInitializer with AddResourceId := 7 }).1.Version = 0 ∧
    (sampleBuilder.Generate sampleSource
      { sampleInitializer with AddResourceId := 7 }).1.Version < sampleBuilder.Version := by
  decide

/-- C10, amended: `Generate` with the builder's own non-zero id keeps the id, calls
`GenerateUniqueId64` not at all and sets the version to 0, so the version after the call
is at most the version before and never greater than 0. -/
theorem Generate_existing_id (p : UniqueIdSource) (b : BinaryBuilder) (i : ContentInitializer)
    (hid : i.AddResourceId = b.mResourceId) (hne : b.mResourceId ≠ 0) :
    (b.Generate p i).1.mResourceId = b.mResourceId ∧
    (b.Generate p i).1.Version = 0 ∧
    (b.Generate p i).1.Version ≤ b.Version ∧
    (b.Generate p i).2 = p := by
  simp [BinaryBuilder.Generate, hid, hne]

/-- C10, amended, at a concrete input: the builder with id 7 and version 3. -/
theorem Generate_existing_id_witness :
    sampleBuilder.mResourceId ≠ 0 ∧
    (sampleBuilder.Generate sampleSource
      { sampleInitializer with AddResourceId := 7 }).1.mResourceId = sampleBuilder.mResourceId ∧
    (sampleBuilder.Generate sampleSource
      { sampleInitializer with AddResourceId := 7 }).1.Version = 0 :=
  ⟨by decide,
    (Generate_existing_id sampleSource sampleBuilder
      { sampleInitializer with AddResourceId := 7 } rfl (by decide)).1,
    (Generate_existing_id sampleSource sampleBuilder
      { sampleInitializer with AddResourceId := 7 } rfl (by decide)).2.1⟩


/-! ## The two outcomes of MakeBinaryContent -/

/-- The two outcomes of `MakeBinaryContent`: either no item, with only `Success` and
`Message` written and no id generated, the builder type being empty on entry; or an item
built from the initializer with a non-empty resolved builder type `t`. -/
theorem MakeBinaryContent_outcome (p : UniqueIdSource) (i : ContentInitializer) :
    ((MakeBinaryContent p i).item = none ∧
      (MakeBinaryContent p i).initializer =
        { i with Success := false, Message := errorMessage } ∧
      (MakeBinaryContent p i).platform = p ∧ i.BuilderType = "") ∨
    (∃ t, t ≠ "" ∧
      (MakeBinaryContent p i).initializer = { i with BuilderType := t } ∧
      (MakeBinaryContent p i).item =
        some { Filename := i.Filename, EditMode := ContentEditMode.ResourceObject,
               Components := [(BinaryBuilder.new.Generate p { i with BuilderType := t }).1] } ∧
      (MakeBinaryContent p i).platform =
        (BinaryBuilder.new.Generate p { i with BuilderType := t }).2) := by
  by_cases h1 : i.Extension = "dds"
  · right
    exact ⟨"TextureDds", by decide, by
      simp [MakeBinaryContent, h1, ContentItem.AddComponent, BinaryContent.new]⟩
  · by_cases h2 : i.Extension = "convexmesh"
    · right
      exact ⟨"ConvexMesh", by decide, by
        simp [MakeBinaryContent, h2, ContentItem.AddComponent, BinaryContent.new]⟩
    · by_cases h3 : i.Extension = "multiconvexmesh"
      · right
        exact ⟨"MultiConvexMesh", by decide, by
          simp [MakeBinaryContent, h3, ContentItem.AddComponent, BinaryContent.new]⟩
      · by_cases h4 : i.Extension = "cubetex"
        · right
          exact ⟨"TextureCube", by decide, by
            simp [MakeBinaryContent, h4, ContentItem.AddComponent, BinaryContent.new]⟩
        · by_cases hb : i.BuilderType = ""
          · left
            simp [MakeBinaryContent, h1, h2, h3, h4, hb]
          · right
            exact ⟨i.BuilderType, hb, by
              simp [MakeBinaryContent, h1, h2, h3, h4, hb, ContentItem.AddComponent,
                BinaryContent.new]⟩

/-! ## Resource ids of created items -/

/-- The creator function alone reuses a donor id: two requests in a row carry the donor
id 7, both items are returned, both builders have id 7, and `GenerateUniqueId64` is never
called.  Telling the two apart is left to the library. -/
theorem MakeBinaryContent_same_donor_id :
    ((MakeBinaryContent sampleSource { sampleInitializer with AddResourceId := 7 }).item.map
      (fun c => c.Components.map BinaryBuilder.mResourceId)) = some [7] ∧
    ((MakeBinaryContent
        (MakeBinaryContent sampleSource { sampleInitializer with AddResourceId := 7 }).platform
        { sampleInitializer with Filename := "copy.bin", AddResourceId := 7 }).item.map
      (fun c => c.Components.map BinaryBuilder.mResourceId)) = some [7] ∧
    (MakeBinaryContent
        (MakeBinaryContent sampleSource { sampleInitializer with AddResourceId := 7 }).platform
        { sampleInitializer with Filename := "copy.bin", AddResourceId := 7 }).platform.calls
      = 0 := by
  decide

/-- The builder of a returned item: its id is the donor id when that is non-zero, and the
next value of the environment otherwise. -/
theorem MakeBinaryContent_builder_id (p : UniqueIdSource) (i : ContentInitializer)
    (c : ContentItem) (h : (MakeBinaryContent p i).item = some c) :
    ∃ b, c.Components = [b] ∧
      (i.AddResourceId ≠ 0 →
        b.mResourceId = i.AddResourceId ∧ (MakeBinaryContent p i).platform = p) ∧
      (i.AddResourceId = 0 →
        b.mResourceId = p.ids p.calls ∧
        (MakeBinaryContent p i).platform = { p with calls := p.calls + 1 }) := by
  rcases MakeBinaryContent_outcome p i with ⟨hn, -⟩ | ⟨t, -, -, hi, hp⟩
  · rw [hn] at h
    exact absurd h (by simp)
  · rw [hi] at h
    have hc : c = _ := (Option.some.inj h).symm
    subst hc
    refine ⟨_, rfl, ?_, ?_⟩
    · intro hne
      rw [hp]
      simp [BinaryBuilder.Generate, hne]
    · intro h0
      rw [hp]
      simp [BinaryBuilder.Generate, h0, GenerateUniqueId64]

/-! ## Resource ids in a library -/

/-- C12: when `MakeBinaryContent` returns no item, the initializer after the call is the
one on entry with only `Success` (false) and `Message` (the diagnostic) written, the
builder type is empty before and after, and no id has been generated. -/
theorem MakeBinaryContent_failure_atomic (p : UniqueIdSource) (i : ContentInitializer)
    (h : (MakeBinaryContent p i).item = none) :
    (MakeBinaryContent p i).initializer =
      { i with Success := false, Message := errorMessage } ∧
    (MakeBinaryContent p i).initializer.Filename = i.Filename ∧
    (MakeBinaryContent p i).initializer.Extension = i.Extension ∧
    (MakeBinaryContent p i).initializer.Name = i.Name ∧
    (MakeBinaryContent p i).initializer.BuilderType = i.BuilderType ∧
    (MakeBinaryContent p i).initializer.BuilderType = "" ∧
    (MakeBinaryContent p i).initializer.AddResourceId = i.AddResourceId ∧
    (MakeBinaryContent p i).initializer.ResourceOwner = i.ResourceOwner ∧
    (MakeBinaryContent p i).platform = p := by
  rcases MakeBinaryContent_outcome p i with ⟨-, hi, hp, hb⟩ | ⟨t, -, -, hs, -⟩
  · rw [hi, hp]
    simp [hb]
  · rw [hs] at h
    exact absurd h (by simp)

/-- C12 at a concrete input: `rock.bin` without a builder type. -/
theorem MakeBinaryContent_failure_atomic_witness :
    (MakeBinaryContent sampleSource { sampleInitializer with BuilderType := "" }).item = none ∧
    (MakeBinaryContent sampleSource { sampleInitializer with BuilderType := "" }).initializer =
      { sampleInitializer with BuilderType := "", Success := false, Message := errorMessage } ∧
    (MakeBinaryContent sampleSource { sampleInitializer with BuilderType := "" }).platform.calls
      = 0 :=
  ⟨by decide,
    (MakeBinaryContent_failure_atomic sampleSource { sampleInitializer with BuilderType := "" }
      (by decide)).1,
    by
      rw [(MakeBinaryContent_failure_atomic sampleSource
        { sampleInitializer with BuilderType := "" } (by decide)).2.2.2.2.2.2.2.2]
      rfl⟩

/-- C18: when `MakeBinaryContent` returns an item, `Success` and `Message` of the
initializer are as on entry. -/
theorem MakeBinaryContent_success_keeps_status (p : UniqueIdSource) (i : ContentInitializer)
    (c : ContentItem) (h : (MakeBinaryContent p i).item = some c) :
    (MakeBinaryContent p i).initializer.Success = i.Success ∧
    (MakeBinaryContent p i).initializer.Message = i.Message := by
  rcases MakeBinaryContent_outcome p i with ⟨hn, -⟩ | ⟨t, -, hi, -, -⟩
  · rw [hn] at h
    exact absurd h (by simp)
  · rw [hi]
    exact ⟨rfl, rfl⟩

/-- C18 at a concrete input: a request entering with `Success = false` and a stale message
gets an item and still has `Success = false` and that message. -/
theorem MakeBinaryContent_success_keeps_status_witness :
    (MakeBinaryContent sampleSource
      { sampleInitializer with Success := false, Message := "stale" }).item = some sampleItem ∧
    (MakeBinaryContent sampleSource
      { sampleInitializer with Success := false, Message := "stale" }).initializer.Success
      = false ∧
    (MakeBinaryContent sampleSource
      { sampleInitializer with Success := false, Message := "stale" }).initializer.Message
      = "stale" :=
  ⟨by decide,
    (MakeBinaryContent_success_keeps_status sampleSource
      { sampleInitializer with Success := false, Message := "stale" } sampleItem (by decide)).1,
    (MakeBinaryContent_success_keeps_status sampleSource
      { sampleInitializer with Success := false, Message := "stale" } sampleItem (by decide)).2⟩

/-! ## The extension table after CreateBinaryContent -/

/-- The table after `CreateBinaryContent`, key by key. -/
theorem CreateBinaryContent_table (system : ContentSystem) (k : String) :
    (CreateBinaryContent system).CreatorsByExtension k =
      if k = "cubetex" then some binaryEntry
      else if k = "physmesh" then some binaryEntry
      else if k = "multiconvexmesh" then some binaryEntry
      else if k = "convexmesh" then some binaryEntry
      else if k = "bin" then some binaryEntry
      else system.CreatorsByExtension k := by
  rfl

/-- C13: whatever the table held, after `CreateBinaryContent` the entries of `bin`,
`convexmesh`, `multiconvexmesh`, `physmesh` and `cubetex` are all the binary entry:
content type `BinaryContent`, creator `MakeBinaryContent`. -/
theorem CreateBinaryContent_registers (system : ContentSystem) :
    (CreateBinaryContent system).CreatorsByExtension "bin" =
      some { Meta := "BinaryContent", MakeItem := MakeBinaryContent } ∧
    (CreateBinaryContent system).CreatorsByExtension "convexmesh" =
      some { Meta := "BinaryContent", MakeItem := MakeBinaryContent } ∧
    (CreateBinaryContent system).CreatorsByExtension "multiconvexmesh" =
      some { Meta := "BinaryContent", MakeItem := MakeBinaryContent } ∧
    (CreateBinaryContent system).CreatorsByExtension "physmesh" =
      some { Meta := "BinaryContent", MakeItem := MakeBinaryContent } ∧
    (CreateBinaryContent system).CreatorsByExtension "cubetex" =
      some { Meta := "BinaryContent", MakeItem := MakeBinaryContent } := by
  simp [CreateBinaryContent_table, binaryEntry]

/-- C14: applying `CreateBinaryContent` twice gives the same extension table as applying
it once. -/
theorem CreateBinaryContent_idempotent (system : ContentSystem) :
    (CreateBinaryContent (CreateBinaryContent system)).CreatorsByExtension =
      (CreateBinaryContent system).CreatorsByExtension := by
  funext k
  rw [CreateBinaryContent_table (CreateBinaryContent system) k, CreateBinaryContent_table system k]
  split_ifs <;> rfl

/-- C17: `CreateBinaryContent` leaves the entry of every key other than the five as it
was; from the empty table exactly the five keys have an entry, and `dds` and `hdr` have
none. -/
theorem CreateBinaryContent_frame (system : ContentSystem) :
    (∀ k, k ≠ "bin" → k ≠ "convexmesh" → k ≠ "multiconvexmesh" → k ≠ "physmesh" →
      k ≠ "cubetex" →
      (CreateBinaryContent system).CreatorsByExtension k = system.CreatorsByExtension k) ∧
    (∀ k, ((CreateBinaryContent ContentSystem.empty).CreatorsByExtension k).isSome = true ↔
      (k = "bin" ∨ k = "convexmesh" ∨ k = "multiconvexmesh" ∨ k = "physmesh" ∨
        k = "cubetex")) ∧
    ((CreateBinaryContent ContentSystem.empty).CreatorsByExtension "dds").isNone = true ∧
    ((CreateBinaryContent ContentSystem.empty).CreatorsByExtension "hdr").isNone = true := by
  refine ⟨?_, ?_, ?_, ?_⟩
  · intro k h1 h2 h3 h4 h5
    simp [CreateBinaryContent_table, h1, h2, h3, h4, h5]
  · intro k
    rw [CreateBinaryContent_table]
    by_cases h5 : k = "cubetex"
    · simp [h5]
    · by_cases h4 : k = "physmesh"
      · simp [h4]
      · by_cases h3 : k = "multiconvexmesh"
        · simp [h3]
        · by_cases h2 : k = "convexmesh"
          · simp [h2]
          · by_cases h1 : k = "bin"
            · simp [h1]
            · simp [h1, h2, h3, h4, h5, ContentSystem.empty]
  · rfl
  · rfl

/-- C17 at a concrete input: the entry `dds` had before is the entry it has after. -/
theorem CreateBinaryContent_frame_witness :
    ((CreateBinaryContent sampleSystem).CreatorsByExtension "dds").map ContentTypeEntry.Meta =
      some "TextureContent" ∧
    ((CreateBinaryContent sampleSystem).CreatorsByExtension "hdr").isNone = true := by
  rw [(CreateBinaryContent_frame sampleSystem).1 "dds" (by decide) (by decide) (by decide)
      (by decide) (by decide),
    (CreateBinaryContent_frame sampleSystem).1 "hdr" (by decide) (by decide) (by decide)
      (by decide) (by decide)]
  exact ⟨rfl, rfl⟩

end Raverie

namespace Zero

/-! ## GetBuildVersionName -/

/-- C16, on the code: for a path that does not exist `GetVersionId` returns the initial
value of `localVersionId`, which is -99 and not 0. -/
theorem GetVersionId_missing_file (fs : FileSystem) (ToValue : String → Int → Int)
    (versionIdFilePath : String) (h : fs.FileExists versionIdFilePath = false) :
    GetVersionId fs ToValue versionIdFilePath = some (-99) ∧
    GetVersionId fs ToValue versionIdFilePath ≠ some 0 := by
  simp [GetVersionId, h]

/-- C16 at a concrete input: no file at all and the path `version.txt`. -/
theorem GetVersionId_missing_file_witness :
    sampleNoFiles.FileExists "version.txt" = false ∧
    GetVersionId sampleNoFiles (fun _ current => current) "version.txt" = some (-99) :=
  ⟨rfl, (GetVersionId_missing_file sampleNoFiles (fun _ current => current) "version.txt"
    rfl).1⟩

end Zero
